import Mathlib

/-!
A shallow embedding of the sampling & aggregation engine of the `bustop`
repository (`src/metrics.rs`, `src/sources/memory.rs`, `src/sources/disk.rs`,
`src/sources/ioreport.rs`, `src/sources/sysctl.rs`, `src/types.rs`).

Conventions of the embedding:
* Rust `u64` / `u32` values are modelled as `Nat`; where the source performs
  `u64` arithmetic that can overflow (release-mode wrapping semantics), the
  embedding applies `% 2^64` explicitly (`wadd64`, `wsub64`, `wmul64`).
* Rust `i64` values are modelled as `Int`.
* Rust `f64` values are modelled as `ℚ` (real-valued float model); the
  `as u64` float-to-integer cast is modelled by `f64CastU64` (saturating, as
  in Rust), and division of a positive float by `0.0` (yielding `+inf`,
  which casts to `u64::MAX`) is modelled explicitly in `ratePerSec`.
* OS reads performed through FFI (`host_statistics64`, `sysctlbyname`,
  IOKit, IOReport) are modelled as oracle inputs supplied in an environment
  record; a `none` models a failed read (nonzero return code / NULL pointer).
-/

/-- The modulus `2^64` of Rust `u64` arithmetic. -/
def U64MOD : Nat := 2 ^ 64

/-- Wrapping `u64` addition (release-mode Rust `+`). -/
def wadd64 (a b : Nat) : Nat := (a + b) % U64MOD

/-- Wrapping `u64` subtraction (release-mode Rust `-`): for `a, b < 2^64`
this is `a - b` when `b ≤ a` and wraps around otherwise. -/
def wsub64 (a b : Nat) : Nat := (a + (U64MOD - b % U64MOD)) % U64MOD

/-- Wrapping `u64` multiplication (release-mode Rust `*`). -/
def wmul64 (a b : Nat) : Nat := (a * b) % U64MOD

/-- Rust `u64::saturating_sub` on `Nat`-modelled `u64` values: truncated
subtraction (`src/sources/disk.rs` uses this for the per-device deltas). -/
def satSub64 (a b : Nat) : Nat := a - b

/-- Wrapping `i64` addition (release-mode Rust `+=` on the `i64` residency
accumulators of `src/metrics.rs`): the exact sum reduced into
`[-2^63, 2^63)`. The literals are `2^63` and `2^64`. -/
def wi64add (a b : Int) : Int :=
  (a + b + 9223372036854775808) % 18446744073709551616 - 9223372036854775808

/-- Rust `f64 as u64` cast: truncates toward zero, saturating at `0` below
and at `u64::MAX` above. -/
def f64CastU64 (q : ℚ) : Nat := (max 0 (min ((U64MOD : Int) - 1) ⌊q⌋)).toNat

/-- Substring test on character lists: `listContainsSub pat l` is `true` iff
`pat` occurs contiguously inside `l`. Embeds Rust `str::contains`. -/
def listContainsSub (pat : List Char) : List Char → Bool
  | [] => pat.isPrefixOf []
  | c :: rest => pat.isPrefixOf (c :: rest) || listContainsSub pat rest

/-- Rust `s.contains(pat)` for strings. -/
def strContainsSub (s pat : String) : Bool := listContainsSub pat.data s.data

/-! ### Data model (`src/types.rs`) -/

/-- The `MemoryPressure` (`src/types.rs`); `Normal` is the `#[default]`. -/
inductive MemoryPressure where
  | Normal
  | Warn
  | Critical
deriving DecidableEq, Repr

/-- The `ThermalPressure` (`src/types.rs`); `Nominal` is the `#[default]`. -/
inductive ThermalPressure where
  | Nominal
  | Moderate
  | Heavy
  | Critical
  | Sleeping
deriving DecidableEq, Repr

/-- The `MemoryMetrics` (`src/types.rs`). All byte/count fields are `u64`. -/
structure MemoryMetrics where
  total_bytes : Nat
  used_bytes : Nat
  free_bytes : Nat
  active_bytes : Nat
  wired_bytes : Nat
  compressed_bytes : Nat
  swap_used_bytes : Nat
  swap_total_bytes : Nat
  page_ins : Nat
  page_outs : Nat
  page_faults : Nat
  pressure : MemoryPressure
deriving DecidableEq, Repr

/-- The `CpuClusterMetrics` (`src/types.rs`); `active_pct`, `idle_pct`,
`power_watts` are `f64`, modelled as `ℚ`. -/
structure CpuClusterMetrics where
  name : String
  freq_mhz : Nat
  freq_max_mhz : Nat
  active_pct : ℚ
  idle_pct : ℚ
  power_watts : ℚ
deriving DecidableEq, Repr

/-- The `GpuMetrics` (`src/types.rs`). -/
structure GpuMetrics where
  freq_mhz : Nat
  freq_max_mhz : Nat
  active_pct : ℚ
  power_watts : ℚ
deriving DecidableEq, Repr

/-- The `GpuMetrics::default()`: all numeric fields zero. -/
def GpuMetrics.dflt : GpuMetrics := ⟨0, 0, 0, 0⟩

/-- The `AneMetrics` (`src/types.rs`). -/
structure AneMetrics where
  power_watts : ℚ
deriving DecidableEq, Repr

/-- The `AneMetrics::default()`. -/
def AneMetrics.dflt : AneMetrics := ⟨0⟩

/-- The `DiskMetrics` (`src/types.rs`); the per-second rates are `u64`. -/
structure DiskMetrics where
  name : String
  read_bytes_per_sec : Nat
  write_bytes_per_sec : Nat
  read_ops_per_sec : Nat
  write_ops_per_sec : Nat
deriving DecidableEq, Repr

/-- The `SystemMetrics` (`src/types.rs`); power fields are `f64`, modelled `ℚ`. -/
structure SystemMetrics where
  total_power_watts : ℚ
  cpu_power_watts : ℚ
  gpu_power_watts : ℚ
  ane_power_watts : ℚ
  dram_power_watts : ℚ
  thermal_pressure : ThermalPressure
deriving DecidableEq, Repr

/-- The `SystemMetrics::default()`: zero power, `Nominal` pressure. -/
def SystemMetrics.dflt : SystemMetrics := ⟨0, 0, 0, 0, 0, .Nominal⟩

/-- The `AllMetrics` (`src/types.rs`): the per-collect snapshot. -/
structure AllMetrics where
  timestamp_ms : Nat
  interval_ms : Nat
  memory : MemoryMetrics
  cpu_clusters : List CpuClusterMetrics
  gpu : GpuMetrics
  ane : AneMetrics
  disks : List DiskMetrics
  system : SystemMetrics
deriving DecidableEq, Repr

/-! ### Static machine info (`src/sources/sysctl.rs`) -/

/-- The `SysctlInfo` (`src/sources/sysctl.rs`): core counts are `u32`,
memory sizes are `u64`. -/
structure SysctlInfo where
  cpu_brand : String
  cpu_cores : Nat
  cpu_cores_perf : Nat
  cpu_cores_eff : Nat
  physical_memory : Nat
  page_size : Nat
deriving DecidableEq, Repr

/-! ### Memory source (`src/sources/memory.rs`) -/

/-- The fields of the platform `vm_statistics64` struct that
`MemoryStats::get_metrics` reads (`src/sources/memory.rs`). The page counts
(`*_count`) are `u32`; the cumulative counters (`pageins`, `pageouts`,
`faults`) are `u64`. Fields of the C struct the engine never reads
are omitted from the model. -/
structure VmStatistics64 where
  free_count : Nat
  active_count : Nat
  inactive_count : Nat
  wire_count : Nat
  pageins : Nat
  pageouts : Nat
  faults : Nat
  speculative_count : Nat
  compressor_page_count : Nat
deriving DecidableEq, Repr

/-- The `VmStatistics64::default()`: all counters zero (returned by
`get_vm_stats` when `host_statistics64` fails). -/
def VmStatistics64.dflt : VmStatistics64 := ⟨0, 0, 0, 0, 0, 0, 0, 0, 0⟩

/-- The mutable state of `MemoryStats` (`src/sources/memory.rs`):
configuration plus the previous cumulative page counters. -/
structure MemoryStatsState where
  page_size : Nat
  total_memory : Nat
  prev_pageins : Nat
  prev_pageouts : Nat
  prev_faults : Nat
deriving DecidableEq, Repr

/-- The `MemoryStats::new(page_size, total_memory)` (`src/sources/memory.rs`). -/
def MemoryStats.new (page_size total_memory : Nat) : MemoryStatsState :=
  ⟨page_size, total_memory, 0, 0, 0⟩

/-- The delta pattern of `MemoryStats::get_metrics`
(`src/sources/memory.rs` lines 93-107): `current - previous` when
`current >= previous`, else `current` (counter reset). -/
def delta (previous current : Nat) : Nat :=
  if previous ≤ current then current - previous else current

/-- The `MemoryStats::get_metrics` (`src/sources/memory.rs`). The OS reads are
passed in: `statsRead` is the result of `host_statistics64` (`none` models a
nonzero return, absorbed into the all-zero default), `swapRead` the result
of the `vm.swapusage` sysctl (`none` absorbed into `(0, 0)`), and `pressure`
the already-defaulted memory-pressure level. Returns the metrics and the
updated source state. -/
def MemoryStats.getMetrics (st : MemoryStatsState)
    (statsRead : Option VmStatistics64) (swapRead : Option (Nat × Nat))
    (pressure : MemoryPressure) : MemoryMetrics × MemoryStatsState :=
  let stats := statsRead.getD VmStatistics64.dflt
  let swap := swapRead.getD (0, 0)
  let free := wmul64 stats.free_count st.page_size
  let active := wmul64 stats.active_count st.page_size
  let inactive := wmul64 stats.inactive_count st.page_size
  let wired := wmul64 stats.wire_count st.page_size
  let compressed := wmul64 stats.compressor_page_count st.page_size
  let speculative := wmul64 stats.speculative_count st.page_size
  let used := wsub64 (wadd64 (wadd64 (wadd64 active wired) compressed) inactive)
      speculative
  let page_ins_delta := delta st.prev_pageins stats.pageins
  let page_outs_delta := delta st.prev_pageouts stats.pageouts
  let page_faults_delta := delta st.prev_faults stats.faults
  (⟨st.total_memory, used, free, active, wired, compressed,
     swap.1, swap.2, page_ins_delta, page_outs_delta, page_faults_delta,
     pressure⟩,
   { st with prev_pageins := stats.pageins, prev_pageouts := stats.pageouts,
             prev_faults := stats.faults })

/-! ### Disk source (`src/sources/disk.rs`) -/

/-- The `DiskSnapshot` (`src/sources/disk.rs`): cumulative `u64` counters for
one device. -/
structure DiskSnapshot where
  read_bytes : Nat
  write_bytes : Nat
  read_ops : Nat
  write_ops : Nat
deriving DecidableEq, Repr

/-- Per-second rate computation of `DiskStats::get_metrics`
(`src/sources/disk.rs` line 73): `(delta as f64 / interval_secs) as u64`.
A positive delta divided by `0.0` is `+inf`, which the `as u64` cast
saturates to `u64::MAX`; `0.0 / 0.0` is `NaN`, which casts to `0`. -/
def ratePerSec (d : Nat) (interval_secs : ℚ) : Nat :=
  if interval_secs = 0 then (if d = 0 then 0 else U64MOD - 1)
  else f64CastU64 ((d : ℚ) / interval_secs)

/-- The `DiskStats::get_metrics` (`src/sources/disk.rs`): the current sample
(the `HashMap` returned by `get_disk_snapshots`, modelled as an association
list in iteration order) is compared device-by-device against the stored
previous sample; only devices found in both contribute an entry, with
saturating-subtraction deltas divided by `interval_secs`. Returns the
metrics list and the new previous-sample state (the current sample,
wholesale). -/
def DiskStats.getMetrics (prev current : List (String × DiskSnapshot))
    (interval_secs : ℚ) : List DiskMetrics × List (String × DiskSnapshot) :=
  (current.filterMap (fun nc =>
      match prev.lookup nc.1 with
      | some p =>
          some ⟨nc.1,
            ratePerSec (satSub64 nc.2.read_bytes p.read_bytes) interval_secs,
            ratePerSec (satSub64 nc.2.write_bytes p.write_bytes) interval_secs,
            ratePerSec (satSub64 nc.2.read_ops p.read_ops) interval_secs,
            ratePerSec (satSub64 nc.2.write_ops p.write_ops) interval_secs⟩
      | none => none),
   current)

/-! ### IOReport source (`src/sources/ioreport.rs`) -/

/-- The `IOReportSample` (`src/sources/ioreport.rs`): one parsed channel
reading; `value` is `i64`. -/
structure IOReportSample where
  group : String
  subgroup : String
  channel : String
  value : Int
  unit : String
deriving DecidableEq, Repr

/-- The `IOReport::get_sample` (`src/sources/ioreport.rs` lines 142-180),
parametrised over the opaque type `Raw` of `CFDictionary` sample sets held
by the OS. `sampleNow` is the result of `IOReportCreateSamples` (`none`
models a NULL dictionary); `deltaSamples prev cur` is
`IOReportCreateSamplesDelta` composed with `parse_samples` (`none` models a
NULL delta dictionary, turned into an empty vector). `prev` is the stored
`prev_sample` (`none` models the NULL pointer set at construction).
Returns the parsed samples and the new `prev_sample` state. -/
def IOReport.getSample {Raw : Type} (sampleNow : Option Raw)
    (deltaSamples : Raw → Raw → Option (List IOReportSample))
    (prev : Option Raw) : List IOReportSample × Option Raw :=
  match sampleNow with
  | none => ([], prev)
  | some cur =>
      let result := match prev with
        | some p => (deltaSamples p cur).getD []
        | none => []
      (result, some cur)

/-! ### Channel aggregation (`src/metrics.rs`, `collect_ioreport_metrics`) -/

/-- The mutable accumulators of the aggregation loop in
`MetricsCollector::collect_ioreport_metrics` (`src/metrics.rs` lines
77-138): the four `i64` residency accumulators, the four `f64` power-domain
accumulators of `system`, and the directly written `gpu.power_watts` /
`ane.power_watts` fields. -/
structure AggAcc where
  ecpu_residency : Int
  ecpu_total : Int
  pcpu_residency : Int
  pcpu_total : Int
  cpuP : ℚ
  gpuP : ℚ
  aneP : ℚ
  dramP : ℚ
  gpuPowerField : ℚ
  anePowerField : ℚ
deriving DecidableEq, Repr

/-- The accumulator state before the loop: residencies zero, power fields
at their `Default` values (zero). -/
def AggAcc.init : AggAcc := ⟨0, 0, 0, 0, 0, 0, 0, 0, 0, 0⟩

/-- One iteration of the `for sample in &samples` loop of
`collect_ioreport_metrics` (`src/metrics.rs` lines 92-138). -/
def processSample (acc : AggAcc) (s : IOReportSample) : AggAcc :=
  if s.group = "CPU Stats" then
    if strContainsSub s.channel "ECPU" || strContainsSub s.channel "E-Cluster" then
      if strContainsSub s.subgroup "Performance States" then
        { acc with
          ecpu_total := wi64add acc.ecpu_total (max s.value 0),
          ecpu_residency :=
            if strContainsSub s.channel "IDLE" then acc.ecpu_residency
            else wi64add acc.ecpu_residency (max s.value 0) }
      else acc
    else if strContainsSub s.channel "PCPU" || strContainsSub s.channel "P-Cluster" then
      if strContainsSub s.subgroup "Performance States" then
        { acc with
          pcpu_total := wi64add acc.pcpu_total (max s.value 0),
          pcpu_residency :=
            if strContainsSub s.channel "IDLE" then acc.pcpu_residency
            else wi64add acc.pcpu_residency (max s.value 0) }
      else acc
    else acc
  else if s.group = "Energy Model" then
    let power_w : ℚ := (s.value : ℚ) / 1000 / 1000
    if strContainsSub s.channel "CPU" then { acc with cpuP := acc.cpuP + power_w }
    else if strContainsSub s.channel "GPU" then
      { acc with gpuP := acc.gpuP + power_w, gpuPowerField := power_w }
    else if strContainsSub s.channel "ANE" then
      { acc with aneP := acc.aneP + power_w, anePowerField := power_w }
    else if strContainsSub s.channel "DRAM" then
      { acc with dramP := acc.dramP + power_w }
    else acc
  else acc

/-- A CPU-cluster entry as pushed by `collect_ioreport_metrics`
(`src/metrics.rs` lines 143-150 and 155-162): frequency fields zero,
`idle_pct = 100 - active_pct`, `power_watts = 0`. -/
def mkCluster (name : String) (active : ℚ) : CpuClusterMetrics :=
  ⟨name, 0, 0, active, 100 - active, 0⟩

/-- The clusters produced from the residency accumulators
(`src/metrics.rs` lines 141-163): one entry per cluster whose total is
positive, with `active_pct = min(residency/total*100, 100)`. -/
def residencyClusters (acc : AggAcc) : List CpuClusterMetrics :=
  (if 0 < acc.ecpu_total then
      [mkCluster "E-Cluster"
        (min ((acc.ecpu_residency : ℚ) / (acc.ecpu_total : ℚ) * 100) 100)]
    else []) ++
  (if 0 < acc.pcpu_total then
      [mkCluster "P-Cluster"
        (min ((acc.pcpu_residency : ℚ) / (acc.pcpu_total : ℚ) * 100) 100)]
    else [])

/-- The fallback cluster list (`src/metrics.rs` lines 172-193): one
placeholder per tier with a non-zero core count, `active_pct = 0`,
`idle_pct = 100`. -/
def fallbackClusters (info : SysctlInfo) : List CpuClusterMetrics :=
  (if 0 < info.cpu_cores_eff then
      [⟨"E-Cluster", 0, 0, 0, 100, 0⟩] else []) ++
  (if 0 < info.cpu_cores_perf then
      [⟨"P-Cluster", 0, 0, 0, 100, 0⟩] else [])

/-- The `MetricsCollector::collect_ioreport_metrics` (`src/metrics.rs` lines
74-199), with the IOReport sampling factored out: `samples?` is `none` when
`self.ioreport` is `None`, otherwise `some` of the vector returned by
`get_sample`. `thermal` is the (internally defaulted) result of
`get_thermal_pressure`. -/
def collectIOReportMetrics (samples? : Option (List IOReportSample))
    (info : SysctlInfo) (thermal : ThermalPressure) :
    List CpuClusterMetrics × GpuMetrics × AneMetrics × SystemMetrics :=
  let base :=
    match samples? with
    | some samples =>
        let acc := samples.foldl processSample AggAcc.init
        (residencyClusters acc,
         { GpuMetrics.dflt with power_watts := acc.gpuPowerField },
         (⟨acc.anePowerField⟩ : AneMetrics),
         { SystemMetrics.dflt with
             cpu_power_watts := acc.cpuP,
             gpu_power_watts := acc.gpuP,
             ane_power_watts := acc.aneP,
             dram_power_watts := acc.dramP,
             total_power_watts := acc.cpuP + acc.gpuP + acc.aneP + acc.dramP })
    | none => ([], GpuMetrics.dflt, AneMetrics.dflt, SystemMetrics.dflt)
  let clusters := if base.1.isEmpty then fallbackClusters info else base.1
  (clusters, base.2.1, base.2.2.1,
   { base.2.2.2 with thermal_pressure := thermal })

/-! ### Orchestrator (`src/metrics.rs`, `MetricsCollector`) -/

/-- The state of `MetricsCollector` (`src/metrics.rs` lines 5-13),
parametrised over the opaque IOReport raw-sample type `Raw`.
`ioreport = none` models `self.ioreport == None` (source failed to
initialize); `ioreport = some prev` models an available source whose stored
`prev_sample` is `prev` (`none` for the NULL pointer). `last_sample_ns` is
the `Instant` of the previous collect, in nanoseconds of the monotonic
clock; `interval_cfg_ms` is the configured (requested) interval. -/
structure CollectorState (Raw : Type) where
  ioreport : Option (Option Raw)
  memory_stats : MemoryStatsState
  disk_prev : List (String × DiskSnapshot)
  sysctl_info : SysctlInfo
  last_sample_ns : Nat
  interval_cfg_ms : Nat

/-- The oracle inputs one `collect()` call obtains from the OS
(`src/metrics.rs` lines 44-60): the monotonic-clock reading, the wall-clock
timestamp (`none` models a `SystemTime` before the epoch, absorbed to `0`),
the raw VM/swap/disk reads, the IOReport sampling primitives, and the
(internally defaulted) pressure levels. -/
structure CollectEnv (Raw : Type) where
  now_ns : Nat
  timestampRead : Option Nat
  vmStatsRead : Option VmStatistics64
  swapRead : Option (Nat × Nat)
  memPressure : MemoryPressure
  diskSample : List (String × DiskSnapshot)
  ioSampleNow : Option Raw
  ioDeltaSamples : Raw → Raw → Option (List IOReportSample)
  thermal : ThermalPressure

/-- The `MetricsCollector::collect` (`src/metrics.rs` lines 44-72):
computes the actual elapsed interval from the monotonic clock, queries each
source, and assembles the snapshot. `Instant::duration_since` saturates at
zero, hence the truncated `Nat` subtraction; `Duration::as_millis` truncated
to `u64` is the `% 2^64`. Returns the snapshot and the updated collector
state. -/
def MetricsCollector.collect {Raw : Type} (env : CollectEnv Raw)
    (st : CollectorState Raw) : AllMetrics × CollectorState Raw :=
  let actual_ns := env.now_ns - st.last_sample_ns
  let interval_secs : ℚ := (actual_ns : ℚ) / 1000000000
  let timestamp_ms := match env.timestampRead with
    | some t => t % U64MOD
    | none => 0
  let memR := MemoryStats.getMetrics st.memory_stats env.vmStatsRead
      env.swapRead env.memPressure
  let diskR := DiskStats.getMetrics st.disk_prev env.diskSample interval_secs
  let ioR : Option (List IOReportSample) × Option (Option Raw) :=
    match st.ioreport with
    | none => (none, none)
    | some prev =>
        let r := IOReport.getSample env.ioSampleNow env.ioDeltaSamples prev
        (some r.1, some r.2)
  let agg := collectIOReportMetrics ioR.1 st.sysctl_info env.thermal
  (⟨timestamp_ms, (actual_ns / 1000000) % U64MOD, memR.1, agg.1, agg.2.1,
    agg.2.2.1, diskR.1, agg.2.2.2⟩,
   { st with
       ioreport := ioR.2,
       memory_stats := memR.2,
       disk_prev := diskR.2,
       last_sample_ns := env.now_ns })

/-! ### Claims -/

/-- C1 (counterexample): the claim asserts the reset rule `delta(p, c) = c`
for `c < p` is applied to the disk counters as well. It is not: with a
previous `read_bytes` of 5 and a current of 3 over a 1-second interval, the
saturating subtraction of the disk source yields a rate of 0, whereas the
claimed rule would yield `delta 5 3 = 3` and hence a rate of 3. -/
theorem C1_counterexample :
    (DiskStats.getMetrics [("disk0", ⟨5, 0, 0, 0⟩)] [("disk0", ⟨3, 0, 0, 0⟩)]
        1).1 = [⟨"disk0", 0, 0, 0, 0⟩] ∧
    delta 5 3 = 3 ∧ ratePerSec (delta 5 3) 1 = 3 ∧ (0 : Nat) ≠ 3 := by
  have h0 : ratePerSec (satSub64 3 5) 1 = 0 := by
    norm_num [ratePerSec, f64CastU64, satSub64, U64MOD]
  have h3 : ratePerSec 3 1 = 3 := by
    norm_num [ratePerSec, f64CastU64, U64MOD]
    decide
  refine ⟨?_, by decide, ?_, by decide⟩
  · have h00 : ratePerSec (satSub64 0 0) 1 = 0 := by
      norm_num [ratePerSec, f64CastU64, satSub64, U64MOD]
    simp only [DiskStats.getMetrics, List.filterMap, List.lookup]
    norm_num [h0, h00]
  · show ratePerSec 3 1 = 3
    exact h3

/-- C1 (amended): the delta computation returns `c - p` when `c ≥ p` and
`c` itself when `c < p`, and is applied to the page-in, page-out and
page-fault counters; the four counters of each disk device instead use
saturating subtraction, which agrees with the delta rule when `c ≥ p` but
yields `0` (not `c`) when the counter resets below its previous value. -/
theorem C1_amended (p c : Nat) :
    (p ≤ c → delta p c = c - p ∧ satSub64 c p = c - p) ∧
    (c < p → delta p c = c ∧ satSub64 c p = 0) ∧
    (∀ st statsRead swapRead pr,
      (MemoryStats.getMetrics st statsRead swapRead pr).1.page_ins =
        delta st.prev_pageins (statsRead.getD VmStatistics64.dflt).pageins ∧
      (MemoryStats.getMetrics st statsRead swapRead pr).1.page_outs =
        delta st.prev_pageouts (statsRead.getD VmStatistics64.dflt).pageouts ∧
      (MemoryStats.getMetrics st statsRead swapRead pr).1.page_faults =
        delta st.prev_faults (statsRead.getD VmStatistics64.dflt).faults) ∧
    (∀ (name : String) (ps cs : DiskSnapshot) (secs : ℚ)
        (prev : List (String × DiskSnapshot)),
      prev.lookup name = some ps →
      (DiskStats.getMetrics prev [(name, cs)] secs).1 =
        [⟨name, ratePerSec (satSub64 cs.read_bytes ps.read_bytes) secs,
          ratePerSec (satSub64 cs.write_bytes ps.write_bytes) secs,
          ratePerSec (satSub64 cs.read_ops ps.read_ops) secs,
          ratePerSec (satSub64 cs.write_ops ps.write_ops) secs⟩]) := by
  refine ⟨?_, ?_, ?_, ?_⟩
  · intro h
    constructor
    · simp [delta, h]
    · rfl
  · intro h
    constructor
    · simp [delta, Nat.not_le.mpr h, Nat.le_of_lt h]
    · simp [satSub64]
      omega
  · intro st statsRead swapRead pr
    exact ⟨rfl, rfl, rfl⟩
  · intro name ps cs secs prev hlk
    simp [DiskStats.getMetrics, hlk]

/-- C1 (witness): the amended statement instantiated at `p = 5, c = 3`
(reset case) and `p = 1, c = 4` (monotone case), with the disk part
evaluated at a concrete one-device sample. -/
theorem C1_amended_witness :
    (delta 5 3 = 3 ∧ satSub64 3 5 = 0) ∧
    (delta 1 4 = 3 ∧ satSub64 4 1 = 3) ∧
    (DiskStats.getMetrics [("disk0", ⟨1, 2, 3, 4⟩)] [("disk0", ⟨5, 6, 7, 8⟩)]
        1).1 = [⟨"disk0", 4, 4, 4, 4⟩] := by
  refine ⟨(C1_amended 5 3).2.1 (by decide), (C1_amended 1 4).1 (by decide), ?_⟩
  have h := (C1_amended 0 0).2.2.2 "disk0" ⟨1, 2, 3, 4⟩ ⟨5, 6, 7, 8⟩ 1
    [("disk0", ⟨1, 2, 3, 4⟩)] (by decide)
  rw [h]
  have h4 : ratePerSec 4 1 = 4 := by
    norm_num [ratePerSec, f64CastU64, U64MOD]
    decide
  simp only [satSub64]
  norm_num [h4]

/-- C2 (code bug): the claim — and the spec — require `used_bytes` to be
clamped at 0 when `active + wired + compressed + inactive - speculative`
would go below zero. The code performs an unchecked `u64` subtraction
(`src/sources/memory.rs` line 90): with a 4096-byte page, all counters zero
and one speculative page, release-mode Rust wraps to `2^64 - 4096` (and a
debug build panics), a value that is neither 0 nor `≤ total_bytes`. -/
theorem C2_unclamped_underflow :
    (MemoryStats.getMetrics (MemoryStats.new 4096 17179869184)
        (some { VmStatistics64.dflt with speculative_count := 1 })
        (some (0, 0)) MemoryPressure.Normal).1.used_bytes = U64MOD - 4096 ∧
    U64MOD - 4096 ≠ 0 ∧
    17179869184 <
      (MemoryStats.getMetrics (MemoryStats.new 4096 17179869184)
        (some { VmStatistics64.dflt with speculative_count := 1 })
        (some (0, 0)) MemoryPressure.Normal).1.used_bytes := by
  refine ⟨by decide, by decide, by decide⟩

/-- Non-negativity of all four residency accumulators; with the wrapping
`i64` model this holds only while the accumulation has not overflowed. -/
def AggAcc.resNonneg (acc : AggAcc) : Prop :=
  0 ≤ acc.ecpu_residency ∧ 0 ≤ acc.ecpu_total ∧
  0 ≤ acc.pcpu_residency ∧ 0 ≤ acc.pcpu_total

/-- A channel accumulated into the E-cluster residency counters
(`src/metrics.rs` lines 95-101): a `CPU Stats` channel whose name matches
the efficiency cluster, inside a `Performance States` subgroup. -/
def isEResidency (s : IOReportSample) : Bool :=
  s.group == "CPU Stats" &&
    (strContainsSub s.channel "ECPU" || strContainsSub s.channel "E-Cluster") &&
    strContainsSub s.subgroup "Performance States"

/-- A channel accumulated into the P-cluster residency counters
(`src/metrics.rs` lines 103-111): not E-matching, P-matching, inside a
`Performance States` subgroup. -/
def isPResidency (s : IOReportSample) : Bool :=
  s.group == "CPU Stats" &&
    !(strContainsSub s.channel "ECPU" || strContainsSub s.channel "E-Cluster") &&
    (strContainsSub s.channel "PCPU" || strContainsSub s.channel "P-Cluster") &&
    strContainsSub s.subgroup "Performance States"

/-- The contribution of one channel to its residency accumulators:
`sample.value.max(0)`. -/
def resContrib (s : IOReportSample) : Int := max s.value 0

lemma EP_exclusive (s : IOReportSample) (h : isEResidency s = true) :
    isPResidency s = false := by
  simp only [isEResidency, Bool.and_eq_true] at h
  obtain ⟨⟨hg, hm⟩, hp⟩ := h
  simp [isPResidency, hm]

lemma sum_resContrib_nonneg (l : List IOReportSample) :
    0 ≤ (l.map resContrib).sum := by
  induction l with
  | nil => simp
  | cons a t ih =>
      simp only [List.map_cons, List.sum_cons]
      exact add_nonneg (le_max_right _ _) ih

/-- One loop iteration, restricted to the four residency accumulators:
a matched channel adds `max value 0` with wrapping `i64` addition to its
cluster total, and also to its cluster residency when not an `IDLE`
channel; everything else leaves the accumulators unchanged. -/
lemma processSample_residency_fields (acc : AggAcc) (s : IOReportSample) :
    (processSample acc s).ecpu_total =
      (if isEResidency s then wi64add acc.ecpu_total (resContrib s)
       else acc.ecpu_total) ∧
    (processSample acc s).ecpu_residency =
      (if isEResidency s && !strContainsSub s.channel "IDLE" then
        wi64add acc.ecpu_residency (resContrib s)
       else acc.ecpu_residency) ∧
    (processSample acc s).pcpu_total =
      (if isPResidency s then wi64add acc.pcpu_total (resContrib s)
       else acc.pcpu_total) ∧
    (processSample acc s).pcpu_residency =
      (if isPResidency s && !strContainsSub s.channel "IDLE" then
        wi64add acc.pcpu_residency (resContrib s)
       else acc.pcpu_residency) := by
  unfold processSample isEResidency isPResidency resContrib
  by_cases h1 : s.group = "CPU Stats"
  · have h1b : (s.group == "CPU Stats") = true := by
      rw [h1]; decide
    rw [if_pos h1]
    simp only [h1b, Bool.true_and]
    split_ifs <;> simp_all
  · have h1b : (s.group == "CPU Stats") = false := by
      simpa using h1
    rw [if_neg h1]
    simp only [h1b, Bool.false_and, Bool.false_eq_true, if_false]
    split_ifs <;> simp

/-- As long as the exact (unwrapped) sums of the matched channel
contributions stay below `2^63`, the wrapping accumulation never
overflows: all four residency accumulators remain non-negative (with each
residency bounded by its total). -/
lemma foldl_res_invariant (samples : List IOReportSample) (acc : AggAcc)
    (he1 : 0 ≤ acc.ecpu_residency) (he2 : acc.ecpu_residency ≤ acc.ecpu_total)
    (hp1 : 0 ≤ acc.pcpu_residency) (hp2 : acc.pcpu_residency ≤ acc.pcpu_total)
    (hbe : acc.ecpu_total + ((samples.filter isEResidency).map resContrib).sum
      < 9223372036854775808)
    (hbp : acc.pcpu_total + ((samples.filter isPResidency).map resContrib).sum
      < 9223372036854775808) :
    (samples.foldl processSample acc).resNonneg := by
  induction samples generalizing acc with
  | nil =>
      exact ⟨he1, le_trans he1 he2, hp1, le_trans hp1 hp2⟩
  | cons s rest ih =>
      obtain ⟨t1, t2, t3, t4⟩ := processSample_residency_fields acc s
      have hc : 0 ≤ resContrib s := le_max_right _ _
      have hre : 0 ≤ ((rest.filter isEResidency).map resContrib).sum :=
        sum_resContrib_nonneg _
      have hrp : 0 ≤ ((rest.filter isPResidency).map resContrib).sum :=
        sum_resContrib_nonneg _
      rw [List.foldl_cons]
      by_cases hE : isEResidency s = true
      · have hPf : isPResidency s = false := EP_exclusive s hE
        rw [List.filter_cons_of_pos hE, List.map_cons, List.sum_cons] at hbe
        rw [List.filter_cons_of_neg (by simp [hPf])] at hbp
        refine ih (processSample acc s) ?_ ?_ ?_ ?_ ?_ ?_
        · rw [t2]
          simp only [hE, Bool.true_and]
          split_ifs
          · simp only [wi64add]; omega
          · exact he1
        · rw [t1, t2]
          simp only [hE, Bool.true_and, if_pos rfl]
          split_ifs
          · simp only [wi64add]; omega
          · simp only [wi64add]; omega
        · rw [t4]
          simp only [hPf, Bool.false_and, Bool.false_eq_true, if_false]
          exact hp1
        · rw [t3, t4]
          simp only [hPf, Bool.false_and, Bool.false_eq_true, if_false]
          exact hp2
        · rw [t1]
          simp only [hE, if_pos rfl]
          simp only [wi64add]
          omega
        · rw [t3]
          simp only [hPf, Bool.false_eq_true, if_false]
          exact hbp
      · have hEf : isEResidency s = false := by
          simpa using hE
        rw [List.filter_cons_of_neg (by simp [hEf])] at hbe
        by_cases hP : isPResidency s = true
        · rw [List.filter_cons_of_pos hP, List.map_cons, List.sum_cons] at hbp
          refine ih (processSample acc s) ?_ ?_ ?_ ?_ ?_ ?_
          · rw [t2]
            simp only [hEf, Bool.false_and, Bool.false_eq_true, if_false]
            exact he1
          · rw [t1, t2]
            simp only [hEf, Bool.false_and, Bool.false_eq_true, if_false]
            exact he2
          · rw [t4]
            simp only [hP, Bool.true_and]
            split_ifs
            · simp only [wi64add]; omega
            · exact hp1
          · rw [t3, t4]
            simp only [hP, Bool.true_and, if_pos rfl]
            split_ifs
            · simp only [wi64add]; omega
            · simp only [wi64add]; omega
          · rw [t1]
            simp only [hEf, Bool.false_eq_true, if_false]
            exact hbe
          · rw [t3]
            simp only [hP, if_pos rfl]
            simp only [wi64add]
            omega
        · have hPf : isPResidency s = false := by
            simpa using hP
          rw [List.filter_cons_of_neg (by simp [hPf])] at hbp
          refine ih (processSample acc s) ?_ ?_ ?_ ?_ ?_ ?_
          · rw [t2]
            simp only [hEf, Bool.false_and, Bool.false_eq_true, if_false]
            exact he1
          · rw [t1, t2]
            simp only [hEf, Bool.false_and, Bool.false_eq_true, if_false]
            exact he2
          · rw [t4]
            simp only [hPf, Bool.false_and, Bool.false_eq_true, if_false]
            exact hp1
          · rw [t3, t4]
            simp only [hPf, Bool.false_and, Bool.false_eq_true, if_false]
            exact hp2
          · rw [t1]
            simp only [hEf, Bool.false_eq_true, if_false]
            exact hbe
          · rw [t3]
            simp only [hPf, Bool.false_eq_true, if_false]
            exact hbp

/-- Every cluster built from non-negative residency accumulators has
`active_pct ∈ [0, 100]` and `idle_pct = 100 - active_pct`. -/
lemma residencyClusters_pct (acc : AggAcc) (h : acc.resNonneg) :
    ∀ c ∈ residencyClusters acc,
      0 ≤ c.active_pct ∧ c.active_pct ≤ 100 ∧
      c.idle_pct + c.active_pct = 100 := by
  obtain ⟨h1, h2, h3, h4⟩ := h
  intro c hc
  unfold residencyClusters at hc
  rw [List.mem_append] at hc
  have key : ∀ (res total : Int), 0 ≤ res → 0 < total →
      0 ≤ min ((res : ℚ) / (total : ℚ) * 100) 100 ∧
      min ((res : ℚ) / (total : ℚ) * 100) 100 ≤ 100 := by
    intro res total hres htot
    constructor
    · apply le_min
      · apply mul_nonneg
        · apply div_nonneg
          · exact_mod_cast hres
          · have : (0 : ℚ) < (total : ℚ) := by exact_mod_cast htot
            linarith
        · norm_num
      · norm_num
    · exact min_le_right _ _
  rcases hc with hc | hc
  · split_ifs at hc with he
    · rw [List.mem_singleton] at hc
      subst hc
      obtain ⟨k1, k2⟩ := key acc.ecpu_residency acc.ecpu_total h1 he
      exact ⟨k1, k2, by simp [mkCluster]⟩
    · simp at hc
  · split_ifs at hc with hp
    · rw [List.mem_singleton] at hc
      subst hc
      obtain ⟨k1, k2⟩ := key acc.pcpu_residency acc.pcpu_total h3 hp
      exact ⟨k1, k2, by simp [mkCluster]⟩
    · simp at hc

/-- Every fallback cluster has `active_pct = 0` and `idle_pct = 100`. -/
lemma fallbackClusters_pct (info : SysctlInfo) :
    ∀ c ∈ fallbackClusters info, c.active_pct = 0 ∧ c.idle_pct = 100 := by
  intro c hc
  unfold fallbackClusters at hc
  rw [List.mem_append] at hc
  rcases hc with hc | hc <;> split_ifs at hc <;> simp_all

/-- Every residency-derived cluster, overflowed or not, has
`idle_pct = 100 - active_pct` and `active_pct ≤ 100` (the upper clamp is
unconditional; only the lower bound needs non-negative accumulators). -/
lemma residencyClusters_weak (acc : AggAcc) :
    ∀ c ∈ residencyClusters acc,
      c.idle_pct + c.active_pct = 100 ∧ c.active_pct ≤ 100 := by
  intro c hc
  unfold residencyClusters at hc
  rw [List.mem_append] at hc
  rcases hc with hc | hc
  · split_ifs at hc with he
    · rw [List.mem_singleton] at hc
      subst hc
      exact ⟨by simp [mkCluster], min_le_right _ _⟩
    · simp at hc
  · split_ifs at hc with hp
    · rw [List.mem_singleton] at hc
      subst hc
      exact ⟨by simp [mkCluster], min_le_right _ _⟩
    · simp at hc

/-- Five E-cluster residency channels of `2^62` each (two of them
non-idle): the `i64` residency accumulator wraps to `-2^63` while the
total wraps around to `2^62`, driving `active_pct` to `-200`. -/
def ovSamples : List IOReportSample :=
  [⟨"CPU Stats", "CPU Complex Performance States", "ECPU0",
      4611686018427387904, ""⟩,
   ⟨"CPU Stats", "CPU Complex Performance States", "ECPU1",
      4611686018427387904, ""⟩,
   ⟨"CPU Stats", "CPU Complex Performance States", "ECPU IDLE A",
      4611686018427387904, ""⟩,
   ⟨"CPU Stats", "CPU Complex Performance States", "ECPU IDLE B",
      4611686018427387904, ""⟩,
   ⟨"CPU Stats", "CPU Complex Performance States", "ECPU IDLE C",
      4611686018427387904, ""⟩]

/-- C3 (counterexample): the claim asserts `active_pct ∈ [0, 100]` for
every emitted cluster. With five E-cluster channels of `2^62` (two
non-idle), the release-mode `i64` accumulation wraps: residency becomes
`-2^63`, the total wraps around to `2^62 > 0`, and the emitted cluster has
`active_pct = min(-200, 100) = -200`, outside `[0, 100]` (the code clamps
only from above). -/
theorem C3_counterexample :
    (collectIOReportMetrics (some ovSamples)
        ⟨"test", 8, 4, 4, 17179869184, 4096⟩
        ThermalPressure.Nominal).1 =
      [⟨"E-Cluster", 0, 0, -200, 300, 0⟩] ∧
    ¬(0 ≤ (-200 : ℚ)) := by
  have hacc : ovSamples.foldl processSample AggAcc.init =
      ⟨-9223372036854775808, 4611686018427387904, 0, 0, 0, 0, 0, 0, 0, 0⟩ := by
    decide
  constructor
  · show (if (residencyClusters
          (ovSamples.foldl processSample AggAcc.init)).isEmpty then
        fallbackClusters ⟨"test", 8, 4, 4, 17179869184, 4096⟩
      else residencyClusters (ovSamples.foldl processSample AggAcc.init)) = _
    rw [hacc]
    norm_num [residencyClusters, mkCluster, min_def]
  · norm_num

/-- C3 (amended): for every emitted cluster entry (residency-computed or
fallback), `idle_pct` equals exactly `100 - active_pct` — so
`idle_pct + active_pct = 100` always holds — and `active_pct ≤ 100` always
holds; the lower bound `0 ≤ active_pct` (hence `active_pct ∈ [0, 100]`)
holds for fallback entries always, and for residency-computed entries
whenever the `i64` residency accumulation does not overflow, in particular
whenever the exact sums of the matched channel contributions stay below
`2^63`. -/
theorem C3_amended (samples? : Option (List IOReportSample))
    (info : SysctlInfo) (th : ThermalPressure) :
    (∀ c ∈ (collectIOReportMetrics samples? info th).1,
      c.idle_pct + c.active_pct = 100 ∧ c.active_pct ≤ 100) ∧
    (∀ samples, samples? = some samples →
      ((samples.filter isEResidency).map resContrib).sum
          < 9223372036854775808 →
      ((samples.filter isPResidency).map resContrib).sum
          < 9223372036854775808 →
      ∀ c ∈ (collectIOReportMetrics samples? info th).1,
        0 ≤ c.active_pct ∧ c.active_pct ≤ 100 ∧
        c.idle_pct + c.active_pct = 100) := by
  constructor
  · intro c hc
    have hfall : c ∈ fallbackClusters info →
        c.idle_pct + c.active_pct = 100 ∧ c.active_pct ≤ 100 := by
      intro hm
      obtain ⟨ha, hi⟩ := fallbackClusters_pct info c hm
      rw [ha, hi]
      norm_num
    unfold collectIOReportMetrics at hc
    cases samples? with
    | none =>
        simp only [List.isEmpty_nil] at hc
        exact hfall hc
    | some samples =>
        simp only at hc
        by_cases he : (residencyClusters
            (samples.foldl processSample AggAcc.init)).isEmpty
        · rw [if_pos he] at hc
          exact hfall hc
        · rw [if_neg he] at hc
          exact residencyClusters_weak _ c hc
  · intro samples hs hbe hbp c hc
    subst hs
    have hfall : c ∈ fallbackClusters info →
        0 ≤ c.active_pct ∧ c.active_pct ≤ 100 ∧
        c.idle_pct + c.active_pct = 100 := by
      intro hm
      obtain ⟨ha, hi⟩ := fallbackClusters_pct info c hm
      rw [ha, hi]
      norm_num
    unfold collectIOReportMetrics at hc
    simp only at hc
    by_cases he : (residencyClusters
        (samples.foldl processSample AggAcc.init)).isEmpty
    · rw [if_pos he] at hc
      exact hfall hc
    · rw [if_neg he] at hc
      have hnn : (samples.foldl processSample AggAcc.init).resNonneg :=
        foldl_res_invariant samples AggAcc.init (le_refl 0) (le_refl 0)
          (le_refl 0) (le_refl 0) (by simpa [AggAcc.init] using hbe)
          (by simpa [AggAcc.init] using hbp)
      exact residencyClusters_pct _ hnn c hc

/-- Two small E-cluster residency channels (idle 70, active 30) used by the
C3 witness: no overflow, `active_pct = 30`. -/
def wSamples : List IOReportSample :=
  [⟨"CPU Stats", "CPU Complex Performance States", "ECPU IDLE", 70, ""⟩,
   ⟨"CPU Stats", "CPU Complex Performance States", "ECPU0", 30, ""⟩]

/-- C3 (witness): the amended theorem applied at the concrete two-channel
sample with residency 30 of 100 — hypotheses (sample equation and both
overflow bounds) discharged concretely — at the emitted E-cluster. -/
theorem C3_amended_witness :
    0 ≤ (⟨"E-Cluster", 0, 0, 30, 70, 0⟩ : CpuClusterMetrics).active_pct ∧
    (⟨"E-Cluster", 0, 0, 30, 70, 0⟩ : CpuClusterMetrics).active_pct ≤ 100 ∧
    (⟨"E-Cluster", 0, 0, 30, 70, 0⟩ : CpuClusterMetrics).idle_pct +
      (⟨"E-Cluster", 0, 0, 30, 70, 0⟩ : CpuClusterMetrics).active_pct
        = 100 := by
  have hacc : wSamples.foldl processSample AggAcc.init =
      ⟨30, 100, 0, 0, 0, 0, 0, 0, 0, 0⟩ := by decide
  have hcl : (collectIOReportMetrics (some wSamples)
      ⟨"test", 8, 4, 4, 17179869184, 4096⟩ ThermalPressure.Nominal).1 =
      [⟨"E-Cluster", 0, 0, 30, 70, 0⟩] := by
    show (if (residencyClusters
          (wSamples.foldl processSample AggAcc.init)).isEmpty then
        fallbackClusters ⟨"test", 8, 4, 4, 17179869184, 4096⟩
      else residencyClusters (wSamples.foldl processSample AggAcc.init)) = _
    rw [hacc]
    norm_num [residencyClusters, mkCluster, min_def]
  exact (C3_amended (some wSamples) ⟨"test", 8, 4, 4, 17179869184, 4096⟩
      ThermalPressure.Nominal).2 wSamples rfl (by decide) (by decide)
    ⟨"E-Cluster", 0, 0, 30, 70, 0⟩
    (by rw [hcl]; exact List.mem_singleton_self _)

/-- C4: in every snapshot `system.total_power_watts` is the sum of the
cpu/gpu/ane/dram power fields, and when the energy/performance-state source
is unavailable (`ioreport` failed to initialize) all five system power
fields are 0. -/
theorem C4_total_power {Raw : Type} (env : CollectEnv Raw)
    (st : CollectorState Raw) :
    ((MetricsCollector.collect env st).1.system.total_power_watts =
      (MetricsCollector.collect env st).1.system.cpu_power_watts +
      (MetricsCollector.collect env st).1.system.gpu_power_watts +
      (MetricsCollector.collect env st).1.system.ane_power_watts +
      (MetricsCollector.collect env st).1.system.dram_power_watts) ∧
    (st.ioreport = none →
      (MetricsCollector.collect env st).1.system.total_power_watts = 0 ∧
      (MetricsCollector.collect env st).1.system.cpu_power_watts = 0 ∧
      (MetricsCollector.collect env st).1.system.gpu_power_watts = 0 ∧
      (MetricsCollector.collect env st).1.system.ane_power_watts = 0 ∧
      (MetricsCollector.collect env st).1.system.dram_power_watts = 0) := by
  constructor
  · unfold MetricsCollector.collect collectIOReportMetrics
    cases st.ioreport with
    | none => simp [SystemMetrics.dflt]
    | some prev => simp
  · intro h
    unfold MetricsCollector.collect collectIOReportMetrics
    rw [h]
    simp [SystemMetrics.dflt]

/-- A concrete collector environment with every optional source absent,
used by the closed witnesses. -/
def envNone : CollectEnv Unit :=
  ⟨0, none, none, none, MemoryPressure.Normal, [], none, fun _ _ => none,
   ThermalPressure.Nominal⟩

/-- A concrete collector state whose IOReport source failed to initialize. -/
def stNoIOReport : CollectorState Unit :=
  ⟨none, MemoryStats.new 4096 17179869184, [],
   ⟨"test", 8, 4, 4, 17179869184, 4096⟩, 0, 1000⟩

/-- C4 (witness): the theorem applied to the all-sources-absent environment
and the no-IOReport state; all five system power fields of the produced
snapshot are 0 and the sum identity holds. -/
theorem C4_witness :
    (MetricsCollector.collect envNone stNoIOReport).1.system.total_power_watts
        = 0 ∧
    (MetricsCollector.collect envNone stNoIOReport).1.system.total_power_watts
        =
      (MetricsCollector.collect envNone stNoIOReport).1.system.cpu_power_watts
        +
      (MetricsCollector.collect envNone stNoIOReport).1.system.gpu_power_watts
        +
      (MetricsCollector.collect envNone stNoIOReport).1.system.ane_power_watts
        +
      (MetricsCollector.collect envNone stNoIOReport).1.system.dram_power_watts
    := ⟨((C4_total_power envNone stNoIOReport).2 rfl).1,
        (C4_total_power envNone stNoIOReport).1⟩

lemma lookup_isSome_iff (l : List (String × DiskSnapshot)) (name : String) :
    (l.lookup name).isSome ↔ ∃ s, (name, s) ∈ l := by
  induction l with
  | nil => simp [List.lookup]
  | cons hd tl ih =>
      obtain ⟨k, v⟩ := hd
      by_cases h : name = k
      · subst h
        simp [List.lookup]
      · rw [List.lookup]
        have hbeq : (name == k) = false := beq_false_of_ne h
        rw [hbeq]
        simp only [ih]
        constructor
        · intro ⟨s, hs⟩
          exact ⟨s, List.mem_cons_of_mem _ hs⟩
        · intro ⟨s, hs⟩
          rcases List.mem_cons.mp hs with heq | hm
          · exact absurd (Prod.mk.injEq .. ▸ heq).1 h
          · exact ⟨s, hm⟩

lemma lookup_some_mem (l : List (String × DiskSnapshot)) (name : String)
    (p : DiskSnapshot) (h : l.lookup name = some p) : (name, p) ∈ l := by
  induction l with
  | nil => simp [List.lookup] at h
  | cons hd tl ih =>
      obtain ⟨k, v⟩ := hd
      rw [List.lookup] at h
      by_cases hk : name = k
      · subst hk
        simp at h
        subst h
        exact List.mem_cons_self _ _
      · rw [beq_false_of_ne hk] at h
        exact List.mem_cons_of_mem _ (ih h)

/-- C5: a device appears in the disks list of a collect cycle exactly when
it is present in both the current and the previous disk sample; a device
first seen this tick, or seen last tick but absent now, contributes no
entry. -/
theorem C5_disks_both_samples (prev current : List (String × DiskSnapshot))
    (secs : ℚ) (name : String) :
    (∃ d ∈ (DiskStats.getMetrics prev current secs).1, d.name = name) ↔
    ((∃ s, (name, s) ∈ current) ∧ (∃ s, (name, s) ∈ prev)) := by
  constructor
  · rintro ⟨d, hd, hname⟩
    unfold DiskStats.getMetrics at hd
    rw [List.mem_filterMap] at hd
    obtain ⟨nc, hnc, hf⟩ := hd
    cases hlk : prev.lookup nc.1 with
    | none => rw [hlk] at hf; simp at hf
    | some p =>
        rw [hlk] at hf
        simp only [Option.some.injEq] at hf
        have hn : d.name = nc.1 := by rw [← hf]
        rw [hn] at hname
        subst hname
        refine ⟨⟨nc.2, ?_⟩, ⟨p, lookup_some_mem _ _ _ hlk⟩⟩
        have : nc = (nc.1, nc.2) := rfl
        rw [← this]
        exact hnc
  · rintro ⟨⟨cs, hcs⟩, ⟨ps, hps⟩⟩
    have hsome : (prev.lookup name).isSome :=
      (lookup_isSome_iff prev name).mpr ⟨ps, hps⟩
    cases hlk : prev.lookup name with
    | none => rw [hlk] at hsome; simp at hsome
    | some p =>
        refine ⟨⟨name,
          ratePerSec (satSub64 cs.read_bytes p.read_bytes) secs,
          ratePerSec (satSub64 cs.write_bytes p.write_bytes) secs,
          ratePerSec (satSub64 cs.read_ops p.read_ops) secs,
          ratePerSec (satSub64 cs.write_ops p.write_ops) secs⟩, ?_, rfl⟩
        unfold DiskStats.getMetrics
        rw [List.mem_filterMap]
        exact ⟨(name, cs), hcs, by rw [hlk]⟩

/-- C6: whenever the residency pass yields zero clusters — the source is
unavailable (`samples? = none`) or its sample produced no cluster with a
positive total — the emitted cluster list is exactly the static-info
fallback: its names are `E-Cluster` iff the efficiency-core count is
non-zero followed by `P-Cluster` iff the performance-core count is
non-zero, and every entry has `active_pct = 0`, `idle_pct = 100`. -/
theorem C6_fallback (samples? : Option (List IOReportSample))
    (info : SysctlInfo) (th : ThermalPressure)
    (hempty : samples? = none ∨ ∀ samples, samples? = some samples →
      residencyClusters (samples.foldl processSample AggAcc.init) = []) :
    (collectIOReportMetrics samples? info th).1 = fallbackClusters info ∧
    ((collectIOReportMetrics samples? info th).1.map (fun c => c.name) =
      (if 0 < info.cpu_cores_eff then ["E-Cluster"] else []) ++
      (if 0 < info.cpu_cores_perf then ["P-Cluster"] else [])) ∧
    (∀ c ∈ (collectIOReportMetrics samples? info th).1,
      c.active_pct = 0 ∧ c.idle_pct = 100) := by
  have hmain : (collectIOReportMetrics samples? info th).1 =
      fallbackClusters info := by
    unfold collectIOReportMetrics
    cases samples? with
    | none => simp
    | some samples =>
        rcases hempty with h | h
        · exact absurd h (by simp)
        · have he := h samples rfl
          simp [he]
  refine ⟨hmain, ?_, ?_⟩
  · rw [hmain]
    unfold fallbackClusters
    split_ifs <;> simp
  · rw [hmain]
    exact fallbackClusters_pct info

/-- C6 (witness): the theorem applied at `samples? = none` on a host with 2
efficiency and 8 performance cores: the emitted list is the two-entry
fallback with zero activity. -/
theorem C6_witness :
    (collectIOReportMetrics none ⟨"m", 10, 8, 2, 0, 16384⟩
        ThermalPressure.Nominal).1 =
      fallbackClusters ⟨"m", 10, 8, 2, 0, 16384⟩ ∧
    (collectIOReportMetrics none ⟨"m", 10, 8, 2, 0, 16384⟩
        ThermalPressure.Nominal).1.map (fun c => c.name) =
      ["E-Cluster", "P-Cluster"] := by
  have h := C6_fallback none ⟨"m", 10, 8, 2, 0, 16384⟩ ThermalPressure.Nominal
    (Or.inl rfl)
  refine ⟨h.1, ?_⟩
  rw [h.2.1]
  norm_num

/-- C7: after successful construction, `collect` is total: for every
environment (any combination of available and failed per-tick reads) and
every collector state it returns a snapshot; per-source failures only shape
the data — an uninitialized IOReport yields the fallback clusters and zero
power, an empty disk sample yields an empty disks list — never an error. -/
theorem C7_collect_never_fails {Raw : Type} (env : CollectEnv Raw)
    (st : CollectorState Raw) :
    ∃ m st2, MetricsCollector.collect env st = (m, st2) ∧
      (st.ioreport = none →
        m.cpu_clusters = fallbackClusters st.sysctl_info ∧
        m.system.total_power_watts = 0 ∧
        m.gpu = GpuMetrics.dflt ∧ m.ane = AneMetrics.dflt) ∧
      (env.diskSample = [] → m.disks = []) := by
  refine ⟨(MetricsCollector.collect env st).1,
    (MetricsCollector.collect env st).2, rfl, ?_, ?_⟩
  · intro h
    unfold MetricsCollector.collect collectIOReportMetrics
    rw [h]
    simp [SystemMetrics.dflt]
  · intro h
    unfold MetricsCollector.collect DiskStats.getMetrics
    rw [h]
    simp

/-- C7 (witness): the theorem applied to the concrete environment with all
optional reads absent and the concrete no-IOReport state. -/
theorem C7_witness :
    ∃ m st2, MetricsCollector.collect envNone stNoIOReport = (m, st2) ∧
      m.cpu_clusters = fallbackClusters stNoIOReport.sysctl_info ∧
      m.disks = [] := by
  obtain ⟨m, st2, heq, h1, h2⟩ := C7_collect_never_fails envNone stNoIOReport
  exact ⟨m, st2, heq, (h1 rfl).1, h2 rfl⟩

/-- C8: `interval_ms` of the snapshot is the measured elapsed wall time
(`now - last_sample`, truncated to milliseconds and cast to `u64`), not the
configured target interval: the snapshot is unchanged under any
reconfiguration of the target, the disks list is computed with the
measured elapsed seconds as the divisor of every rate, and a
2,000,000-byte delta over a 2-second interval yields a rate of
1,000,000 bytes per second. -/
theorem C8_actual_interval {Raw : Type} (env : CollectEnv Raw)
    (st : CollectorState Raw) :
    ((MetricsCollector.collect env st).1.interval_ms =
      ((env.now_ns - st.last_sample_ns) / 1000000) % U64MOD) ∧
    ((MetricsCollector.collect env st).1.disks =
      (DiskStats.getMetrics st.disk_prev env.diskSample
        (((env.now_ns - st.last_sample_ns : Nat) : ℚ) / 1000000000)).1) ∧
    (∀ i, (MetricsCollector.collect env
        { st with interval_cfg_ms := i }).1 =
      (MetricsCollector.collect env st).1) ∧
    ratePerSec 2000000 2 = 1000000 := by
  refine ⟨rfl, rfl, fun i => rfl, ?_⟩
  norm_num [ratePerSec, f64CastU64, U64MOD]
  decide

/-! ### Energy-domain classification (the `"Energy Model"` arm of
`collect_ioreport_metrics`, `src/metrics.rs` lines 114-128) -/

/-- A channel classified into the CPU power domain: an energy-group channel
whose name contains `"CPU"` (first branch of the cascade). -/
def isEnergyCPU (s : IOReportSample) : Bool :=
  s.group == "Energy Model" && strContainsSub s.channel "CPU"

/-- A channel classified into the GPU power domain: an energy-group channel
whose name contains `"GPU"` but not `"CPU"` (second branch). -/
def isEnergyGPU (s : IOReportSample) : Bool :=
  s.group == "Energy Model" && !strContainsSub s.channel "CPU" &&
    strContainsSub s.channel "GPU"

/-- A channel classified into the ANE power domain (third branch). -/
def isEnergyANE (s : IOReportSample) : Bool :=
  s.group == "Energy Model" && !strContainsSub s.channel "CPU" &&
    !strContainsSub s.channel "GPU" && strContainsSub s.channel "ANE"

/-- A channel classified into the DRAM power domain (fourth branch). -/
def isEnergyDRAM (s : IOReportSample) : Bool :=
  s.group == "Energy Model" && !strContainsSub s.channel "CPU" &&
    !strContainsSub s.channel "GPU" && !strContainsSub s.channel "ANE" &&
    strContainsSub s.channel "DRAM"

/-- The two-stage unit conversion of an energy-channel value to watts
(`src/metrics.rs` lines 115-116): divide by 1000 (to milli-units), then by
1000 again. -/
def toWatts (s : IOReportSample) : ℚ := (s.value : ℚ) / 1000 / 1000

lemma processSample_energy_fields (acc : AggAcc) (s : IOReportSample) :
    (processSample acc s).cpuP =
      acc.cpuP + (if isEnergyCPU s then toWatts s else 0) ∧
    (processSample acc s).gpuP =
      acc.gpuP + (if isEnergyGPU s then toWatts s else 0) ∧
    (processSample acc s).aneP =
      acc.aneP + (if isEnergyANE s then toWatts s else 0) ∧
    (processSample acc s).dramP =
      acc.dramP + (if isEnergyDRAM s then toWatts s else 0) ∧
    (processSample acc s).gpuPowerField =
      (if isEnergyGPU s then toWatts s else acc.gpuPowerField) ∧
    (processSample acc s).anePowerField =
      (if isEnergyANE s then toWatts s else acc.anePowerField) := by
  unfold processSample isEnergyCPU isEnergyGPU isEnergyANE isEnergyDRAM
  by_cases h1 : s.group = "CPU Stats"
  · have h2 : (s.group == "Energy Model") = false := by
      rw [h1]; decide
    rw [if_pos h1]
    simp only [h2, Bool.false_and, Bool.false_eq_true, if_false]
    split_ifs <;> simp
  · rw [if_neg h1]
    by_cases h2 : s.group = "Energy Model"
    · have h2b : (s.group == "Energy Model") = true := by
        rw [h2]; decide
      rw [if_pos h2]
      simp only [h2b, Bool.true_and]
      split_ifs <;> simp_all [toWatts]
    · have h2b : (s.group == "Energy Model") = false := by
        simpa using h2
      rw [if_neg h2]
      simp [h2b]

lemma getLastD_cons (x d : ℚ) (l : List ℚ) :
    ((x :: l).getLast?).getD d = (l.getLast?).getD x := by
  induction l generalizing x d with
  | nil => rfl
  | cons y ys ih =>
      rw [List.getLast?_cons_cons]
      rw [ih y d, ih y x]

/-- The fold of the aggregation loop accumulates the converted energy
values: each system power-domain accumulator ends at its initial value plus
the sum of the converted values of the channels classified into it, while
the directly written `gpu`/`ane` power fields end at the converted value of
the last matching channel (or their initial value when none matched). -/
lemma foldl_energy (samples : List IOReportSample) (acc : AggAcc) :
    (samples.foldl processSample acc).cpuP =
      acc.cpuP + ((samples.filter isEnergyCPU).map toWatts).sum ∧
    (samples.foldl processSample acc).gpuP =
      acc.gpuP + ((samples.filter isEnergyGPU).map toWatts).sum ∧
    (samples.foldl processSample acc).aneP =
      acc.aneP + ((samples.filter isEnergyANE).map toWatts).sum ∧
    (samples.foldl processSample acc).dramP =
      acc.dramP + ((samples.filter isEnergyDRAM).map toWatts).sum ∧
    (samples.foldl processSample acc).gpuPowerField =
      (((samples.filter isEnergyGPU).map toWatts).getLast?).getD
        acc.gpuPowerField ∧
    (samples.foldl processSample acc).anePowerField =
      (((samples.filter isEnergyANE).map toWatts).getLast?).getD
        acc.anePowerField := by
  induction samples generalizing acc with
  | nil => simp
  | cons s rest ih =>
      obtain ⟨e1, e2, e3, e4, e5, e6⟩ := processSample_energy_fields acc s
      obtain ⟨i1, i2, i3, i4, i5, i6⟩ := ih (processSample acc s)
      rw [List.foldl_cons] at *
      refine ⟨?_, ?_, ?_, ?_, ?_, ?_⟩
      · rw [i1, e1, List.filter_cons]
        split_ifs with h <;> simp [h] <;> ring
      · rw [i2, e2, List.filter_cons]
        split_ifs with h <;> simp [h] <;> ring
      · rw [i3, e3, List.filter_cons]
        split_ifs with h <;> simp [h] <;> ring
      · rw [i4, e4, List.filter_cons]
        split_ifs with h <;> simp [h] <;> ring
      · rw [i5, e5, List.filter_cons]
        split_ifs with h
        · rw [List.map_cons, getLastD_cons]
        · rfl
      · rw [i6, e6, List.filter_cons]
        split_ifs with h
        · rw [List.map_cons, getLastD_cons]
        · rfl

/-- First concrete GPU-domain energy channel of the C9 counterexample:
1,000,000 µW (1 W). -/
def gpuEnergyA : IOReportSample := ⟨"Energy Model", "", "GPU Energy A", 1000000, ""⟩

/-- Second GPU-domain energy channel of the C9 counterexample: 2 W. -/
def gpuEnergyB : IOReportSample := ⟨"Energy Model", "", "GPU Energy B", 2000000, ""⟩

/-- C9 (counterexample): the claim asserts converted channel values are
summed, not overwritten, in *every* power field of the snapshot that
reports a domain. With two GPU-classified energy channels of 1 W and 2 W,
the system accumulator `system.gpu_power_watts` is indeed the sum 3, but
the snapshot field `gpu.power_watts`, which reports the same domain, is
overwritten to the 2 W of the last channel — not 3. -/
theorem C9_counterexample :
    (collectIOReportMetrics (some [gpuEnergyA, gpuEnergyB])
      ⟨"test", 8, 4, 4, 17179869184, 4096⟩
      ThermalPressure.Nominal).2.2.2.gpu_power_watts = 3 ∧
    (collectIOReportMetrics (some [gpuEnergyA, gpuEnergyB])
      ⟨"test", 8, 4, 4, 17179869184, 4096⟩
      ThermalPressure.Nominal).2.1.power_watts = 2 ∧
    (2 : ℚ) ≠ 3 := by
  obtain ⟨-, f2, -, -, f5, -⟩ := foldl_energy [gpuEnergyA, gpuEnergyB] AggAcc.init
  have hga : isEnergyGPU gpuEnergyA = true := by decide
  have hgb : isEnergyGPU gpuEnergyB = true := by decide
  have hwa : toWatts gpuEnergyA = 1 := by norm_num [toWatts, gpuEnergyA]
  have hwb : toWatts gpuEnergyB = 2 := by norm_num [toWatts, gpuEnergyB]
  rw [List.filter_cons_of_pos hga, List.filter_cons_of_pos hgb,
    List.filter_nil, List.map_cons, List.map_cons, List.map_nil, hwa, hwb]
    at f2 f5
  rw [List.getLast?_cons_cons] at f5
  refine ⟨?_, ?_, by norm_num⟩
  · show ([gpuEnergyA, gpuEnergyB].foldl processSample AggAcc.init).gpuP = 3
    rw [f2]
    norm_num [AggAcc.init]
  · show ([gpuEnergyA,
      gpuEnergyB].foldl processSample AggAcc.init).gpuPowerField = 2
    rw [f5]
    rfl

/-- C9 (amended): within the energy group the raw value of each channel is
converted to watts by the fixed two-stage division and classified by the
substring cascade; channels mapping to the same domain are summed in the
four `system` power-domain accumulators (and their total), while the
snapshot component fields `gpu.power_watts` and `ane.power_watts` are
overwritten by each matching channel and therefore end at the last
converted value of the last matching channel (0 when none matched). -/
theorem C9_amended (samples : List IOReportSample) (info : SysctlInfo)
    (th : ThermalPressure) :
    (collectIOReportMetrics (some samples) info th).2.2.2.cpu_power_watts =
      ((samples.filter isEnergyCPU).map toWatts).sum ∧
    (collectIOReportMetrics (some samples) info th).2.2.2.gpu_power_watts =
      ((samples.filter isEnergyGPU).map toWatts).sum ∧
    (collectIOReportMetrics (some samples) info th).2.2.2.ane_power_watts =
      ((samples.filter isEnergyANE).map toWatts).sum ∧
    (collectIOReportMetrics (some samples) info th).2.2.2.dram_power_watts =
      ((samples.filter isEnergyDRAM).map toWatts).sum ∧
    (collectIOReportMetrics (some samples) info th).2.2.2.total_power_watts =
      ((samples.filter isEnergyCPU).map toWatts).sum +
      ((samples.filter isEnergyGPU).map toWatts).sum +
      ((samples.filter isEnergyANE).map toWatts).sum +
      ((samples.filter isEnergyDRAM).map toWatts).sum ∧
    (collectIOReportMetrics (some samples) info th).2.1.power_watts =
      (((samples.filter isEnergyGPU).map toWatts).getLast?).getD 0 ∧
    (collectIOReportMetrics (some samples) info th).2.2.1.power_watts =
      (((samples.filter isEnergyANE).map toWatts).getLast?).getD 0 := by
  obtain ⟨f1, f2, f3, f4, f5, f6⟩ := foldl_energy samples AggAcc.init
  refine ⟨?_, ?_, ?_, ?_, ?_, ?_, ?_⟩
  · show (samples.foldl processSample AggAcc.init).cpuP = _
    rw [f1]
    norm_num [AggAcc.init]
  · show (samples.foldl processSample AggAcc.init).gpuP = _
    rw [f2]
    norm_num [AggAcc.init]
  · show (samples.foldl processSample AggAcc.init).aneP = _
    rw [f3]
    norm_num [AggAcc.init]
  · show (samples.foldl processSample AggAcc.init).dramP = _
    rw [f4]
    norm_num [AggAcc.init]
  · show (samples.foldl processSample AggAcc.init).cpuP +
        (samples.foldl processSample AggAcc.init).gpuP +
        (samples.foldl processSample AggAcc.init).aneP +
        (samples.foldl processSample AggAcc.init).dramP = _
    rw [f1, f2, f3, f4]
    norm_num [AggAcc.init]
  · show (samples.foldl processSample AggAcc.init).gpuPowerField = _
    rw [f5]
    rfl
  · show (samples.foldl processSample AggAcc.init).anePowerField = _
    rw [f6]
    rfl

/-- C10: on the first `get_sample` call after construction (stored previous
sample is NULL) with a successful raw sampling, the source returns an empty
reading list and retains the newly taken raw sample as the baseline;
consequently a collect whose IOReport state is in that condition emits a
snapshot with the static-info fallback clusters, zero power everywhere,
and a next state holding the new baseline. -/
theorem C10_first_sample {Raw : Type} (env : CollectEnv Raw)
    (st : CollectorState Raw) (cur : Raw)
    (hprev : st.ioreport = some none) (hnow : env.ioSampleNow = some cur) :
    IOReport.getSample env.ioSampleNow env.ioDeltaSamples none =
      ([], some cur) ∧
    (MetricsCollector.collect env st).1.cpu_clusters =
      fallbackClusters st.sysctl_info ∧
    (MetricsCollector.collect env st).1.system.total_power_watts = 0 ∧
    (MetricsCollector.collect env st).1.system.cpu_power_watts = 0 ∧
    (MetricsCollector.collect env st).1.system.gpu_power_watts = 0 ∧
    (MetricsCollector.collect env st).1.system.ane_power_watts = 0 ∧
    (MetricsCollector.collect env st).1.system.dram_power_watts = 0 ∧
    (MetricsCollector.collect env st).1.gpu.power_watts = 0 ∧
    (MetricsCollector.collect env st).1.ane.power_watts = 0 ∧
    (MetricsCollector.collect env st).2.ioreport = some (some cur) := by
  have hgs : IOReport.getSample env.ioSampleNow env.ioDeltaSamples none =
      ([], some cur) := by
    rw [hnow]
    rfl
  refine ⟨hgs, ?_⟩
  unfold MetricsCollector.collect
  rw [hprev]
  simp only [hgs]
  unfold collectIOReportMetrics
  norm_num [residencyClusters, AggAcc.init, GpuMetrics.dflt,
    SystemMetrics.dflt, AneMetrics.dflt]

/-- C10 (witness): the theorem applied at a concrete state whose IOReport
source is freshly constructed (stored sample NULL) and an environment whose
raw sampling returns the token `42`. -/
theorem C10_witness :
    (MetricsCollector.collect
      (⟨5000000000, some 1700000000000, none, none, MemoryPressure.Normal,
        [], some 42, fun _ _ => none, ThermalPressure.Nominal⟩ :
        CollectEnv Nat)
      (⟨some none, MemoryStats.new 4096 17179869184, [],
        ⟨"test", 8, 4, 4, 17179869184, 4096⟩, 0, 1000⟩ :
        CollectorState Nat)).1.system.total_power_watts = 0 ∧
    (MetricsCollector.collect
      (⟨5000000000, some 1700000000000, none, none, MemoryPressure.Normal,
        [], some 42, fun _ _ => none, ThermalPressure.Nominal⟩ :
        CollectEnv Nat)
      (⟨some none, MemoryStats.new 4096 17179869184, [],
        ⟨"test", 8, 4, 4, 17179869184, 4096⟩, 0, 1000⟩ :
        CollectorState Nat)).2.ioreport = some (some 42) := by
  have h := C10_first_sample
    (⟨5000000000, some 1700000000000, none, none, MemoryPressure.Normal,
      [], some 42, fun _ _ => none, ThermalPressure.Nominal⟩ :
      CollectEnv Nat)
    (⟨some none, MemoryStats.new 4096 17179869184, [],
      ⟨"test", 8, 4, 4, 17179869184, 4096⟩, 0, 1000⟩ :
      CollectorState Nat)
    42 rfl rfl
  exact ⟨h.2.2.1, h.2.2.2.2.2.2.2.2.2⟩
